import Mathlib

/-!
Verification development for the piko tunnel registry and request-forwarding
fragment.  The source fragment contains the upstream acceptor HTTP server
(package `server`), two versions of the metrics middleware (package
`middleware`), and the reverse-proxy forwarding test.  The registry and
forwarding engine themselves are not part of the fragment, so they are
modelled from the design spec; the acceptor and the middleware are embedded
directly from the source.
-/

namespace Piko

/-- Modelled from the spec: an inbound HTTP request as seen by the reverse
proxy router (method, path, query parameters, body).  The reverseproxy
`Server`/`Forward` implementation is not in the source fragment. -/
structure HttpRequest where
  method : String
  path : String
  query : List (String × String)
  body : String
deriving DecidableEq, Repr

/-- Modelled from the spec: an HTTP response relayed back to the client. -/
structure HttpResponse where
  status : Nat
  body : String
deriving DecidableEq, Repr

/-- Modelled from the spec: a Tunnel Connection is identified by its unique
connection id. -/
abbrev Tunnel := Nat

/-- Modelled from the spec: a Registry Entry maps an endpoint identifier to
the ordered set of Active Tunnel Connections registered for it, together
with the round-robin rotation counter used by `Select`. -/
structure Entry where
  conns : List Tunnel
  next : Nat
deriving DecidableEq, Repr

/-- Modelled from the spec: the Tunnel Registry, an in-memory index from
endpoint identifier to its Registry Entry. -/
structure Registry where
  entries : List (String × Entry)
deriving DecidableEq, Repr

/-- Association-list lookup of an endpoint's entry. -/
def lookupEntry : List (String × Entry) → String → Option Entry
  | [], _ => none
  | (k, v) :: rest, e => if k = e then some v else lookupEntry rest e

def Registry.lookup (r : Registry) (e : String) : Option Entry :=
  lookupEntry r.entries e

/-- Replace the entry stored for endpoint `e` (no-op when absent). -/
def updateEntryList : List (String × Entry) → String → Entry → List (String × Entry)
  | [], _, _ => []
  | (k, v) :: rest, e, ent =>
      if k = e then (k, ent) :: rest else (k, v) :: updateEntryList rest e ent

def Registry.updateEntry (r : Registry) (e : String) (ent : Entry) : Registry :=
  ⟨updateEntryList r.entries e ent⟩

/-- Modelled from the spec: `Select` errors — `NoTunnel` when the entry is
absent or empty. -/
inductive SelectError where
  | NoTunnel
deriving DecidableEq, Repr

/-- Modelled from the spec: `Registry.Select` returns one Active tunnel for
the endpoint using round-robin over the entry's current members, advancing
the rotation counter; it returns `NoTunnel` if the entry is absent or
empty.  It also returns the registry with the advanced counter. -/
def Registry.select (r : Registry) (e : String) :
    Except SelectError (Tunnel × Registry) :=
  match r.lookup e with
  | none => .error .NoTunnel
  | some ent =>
      match ent.conns[ent.next % ent.conns.length]? with
      | none => .error .NoTunnel
      | some t => .ok (t, r.updateEntry e ⟨ent.conns, ent.next + 1⟩)

/-- Modelled from the spec: `Remove(endpointID, conn)` removes the
connection from the entry and deletes the entry if it becomes empty;
it is a no-op when already absent. -/
def removeConnList : List (String × Entry) → String → Tunnel → List (String × Entry)
  | [], _, _ => []
  | (k, v) :: rest, e, t =>
      if k = e then
        let conns := v.conns.filter (fun c => c ≠ t)
        if conns.isEmpty then rest else (k, ⟨conns, v.next⟩) :: rest
      else (k, v) :: removeConnList rest e t

def Registry.removeConn (r : Registry) (e : String) (t : Tunnel) : Registry :=
  ⟨removeConnList r.entries e t⟩

/-- Modelled from the spec: the outcome of attempting one request/response
exchange over a selected tunnel.  `failBeforeBytes` is a failure before any
response byte was received (open/initial-write failure); `failAfterBytes`
is a tunnel failure after at least one response byte was received. -/
inductive AttemptResult where
  | success (resp : HttpResponse)
  | failBeforeBytes
  | failAfterBytes
deriving DecidableEq, Repr

/-- Modelled from the spec: the error taxonomy of `Forward`. -/
inductive ForwardError where
  | NoTunnel
  | BadGateway
  | UpstreamReset
deriving DecidableEq, Repr

/-- Modelled from the spec: `Forward(request)` calls `Registry.Select`; on
`NoTunnel` it fails immediately with `NoTunnel` (no attempt is made).  On a
selected tunnel it runs the exchange; if the exchange fails before any
response byte was received it removes the dead tunnel and retries selection
once against a different tunnel before failing with `BadGateway`; once any
response byte has been received a failure propagates as `UpstreamReset` and
is never retried.  The second component counts the exchange attempts made. -/
def forward (r : Registry) (e : String) (req : HttpRequest)
    (attempt : Tunnel → HttpRequest → AttemptResult) :
    Except ForwardError HttpResponse × Nat :=
  match r.select e with
  | .error .NoTunnel => (.error .NoTunnel, 0)
  | .ok (t, r1) =>
      match attempt t req with
      | .success resp => (.ok resp, 1)
      | .failAfterBytes => (.error .UpstreamReset, 1)
      | .failBeforeBytes =>
          match (r1.removeConn e t).select e with
          | .error .NoTunnel => (.error .BadGateway, 1)
          | .ok (t2, _) =>
              match attempt t2 req with
              | .success resp => (.ok resp, 2)
              | .failAfterBytes => (.error .UpstreamReset, 2)
              | .failBeforeBytes => (.error .BadGateway, 2)

/-- Modelled from the spec: the sequence of tunnels returned by `M`
successive `Select` calls for one endpoint (each call sees the registry
left by the previous one); stops early if `Select` fails. -/
def Registry.selectSeq (r : Registry) (e : String) : Nat → List Tunnel
  | 0 => []
  | m + 1 =>
      match r.select e with
      | .error _ => []
      | .ok (t, r1) => t :: r1.selectSeq e m

end Piko

namespace Middleware

/-- Embedding of Go's `http.Request` as read by
`computeApproximateRequestSize`: the URL (nil-able), method, protocol,
header map, host and content length (`-1` when unknown). -/
structure GoRequest where
  url : Option String
  method : String
  proto : String
  header : List (String × List String)
  host : String
  contentLength : Int
deriving DecidableEq, Repr

/-- Embedding of `computeApproximateRequestSize` (identical in
src/unnamed/part_002 and src/pkg/middleware/metrics.go): sums the URL
string length, method, proto, every header name and value, the host, and
the content length when it is not `-1`. -/
def computeApproximateRequestSize (r : GoRequest) : Int :=
  let s : Int := match r.url with
    | some u => (u.length : Int)
    | none => 0
  let s := s + (r.method.length : Int)
  let s := s + (r.proto.length : Int)
  let s := List.foldl
    (fun acc p =>
      List.foldl (fun a v => a + (v.length : Int)) (acc + (p.1.length : Int)) p.2)
    s r.header
  let s := s + (r.host.length : Int)
  if r.contentLength ≠ -1 then s + r.contentLength else s

/-- The five metric families of the middleware. -/
inductive MetricName where
  | requestsInFlight
  | requestsTotal
  | requestLatency
  | requestSize
  | responseSize
deriving DecidableEq, Repr

/-- A Prometheus label set as used by the middleware: the three label
names that occur (`endpoint`, `status`, `method`), each present or not. -/
structure LabelSet where
  endpoint : Option String
  status : Option String
  method : Option String
deriving DecidableEq, Repr

/-- One metric operation performed against a collector. -/
inductive MetricEvent where
  | gaugeInc (m : MetricName) (ls : LabelSet)
  | gaugeDec (m : MetricName) (ls : LabelSet)
  | counterInc (m : MetricName) (ls : LabelSet)
  | observe (m : MetricName) (ls : LabelSet) (v : Rat)
deriving DecidableEq, Repr

def MetricEvent.name : MetricEvent → MetricName
  | .gaugeInc m _ => m
  | .gaugeDec m _ => m
  | .counterInc m _ => m
  | .observe m _ _ => m

/-- Whether the event records an observation (a counter increment or a
histogram observation), as opposed to a gauge movement. -/
def MetricEvent.isObservation : MetricEvent → Bool
  | .counterInc _ _ => true
  | .observe _ _ _ => true
  | _ => false

/-- The observations recorded for metric family `n` in a trace. -/
def observationsOf (evs : List MetricEvent) (n : MetricName) : List MetricEvent :=
  evs.filter (fun ev => ev.isObservation && ev.name == n)

/-- Whether the event increments the requests-in-flight gauge. -/
def isInflightInc : MetricEvent → Bool
  | .gaugeInc .requestsInFlight _ => true
  | _ => false

/-- Whether the event decrements the requests-in-flight gauge. -/
def isInflightDec : MetricEvent → Bool
  | .gaugeDec .requestsInFlight _ => true
  | _ => false

/-- Net movement of the requests-in-flight gauge over a trace. -/
def inflightDelta (evs : List MetricEvent) : Int :=
  List.foldl
    (fun acc ev =>
      match ev with
      | .gaugeInc .requestsInFlight _ => acc + 1
      | .gaugeDec .requestsInFlight _ => acc - 1
      | _ => acc)
    0 evs

/-- Outcome of running the wrapped handler chain (`c.Next()`): either it
returns normally with the writer's final status and written body size, or
it panics. -/
inductive InnerOutcome where
  | normal (status : Nat) (size : Int)
  | panicked (err : String)
deriving DecidableEq, Repr

/-- A registered Prometheus collector: metric family, subsystem, and the
variable label names of the vector (empty for unlabeled collectors). -/
structure Collector where
  metric : MetricName
  subsystem : String
  labelNames : List String
deriving DecidableEq, Repr

/-- A Prometheus registry, as the list of collectors registered with it. -/
abbrev PromRegistry := List Collector

namespace V1

/-- Embedding of `Metrics` from src/unnamed/part_002: five collector
vectors, each labeled at least by `endpoint`. -/
structure Metrics where
  RequestsInFlight : Collector
  RequestsTotal : Collector
  RequestLatency : Collector
  RequestSize : Collector
  ResponseSize : Collector
deriving DecidableEq, Repr

/-- Embedding of `NewMetrics(subsystem)` from src/unnamed/part_002: builds
the five vectors with their label names (`endpoint` on all, plus `status`
and `method` on totals and latency); it does not register them. -/
def NewMetrics (subsystem : String) : Metrics :=
  ⟨⟨.requestsInFlight, subsystem, ["endpoint"]⟩,
   ⟨.requestsTotal, subsystem, ["endpoint", "status", "method"]⟩,
   ⟨.requestLatency, subsystem, ["endpoint", "status", "method"]⟩,
   ⟨.requestSize, subsystem, ["endpoint"]⟩,
   ⟨.responseSize, subsystem, ["endpoint"]⟩⟩

/-- Embedding of `Metrics.Register(registry)` from src/unnamed/part_002:
registers the five vectors with the registry. -/
def Metrics.Register (m : Metrics) (registry : PromRegistry) : PromRegistry :=
  registry ++ [m.RequestsInFlight, m.RequestsTotal, m.RequestLatency,
               m.RequestSize, m.ResponseSize]

/-- Embedding of `Metrics.Handler(endpointID)` from src/unnamed/part_002 as
the trace of metric events it performs on one request: increment the
in-flight gauge labeled by the endpoint, run the wrapped chain, then (on
normal return) record the totals counter and latency histogram labeled by
endpoint, status and method, the approximate request size and the response
size labeled by endpoint, and finally (deferred) decrement the gauge.  The
second component is the panic escaping the handler, if any. -/
def Metrics.Handler (_m : Metrics) (endpointID : String) (req : GoRequest)
    (inner : InnerOutcome) (elapsedMs : Int) :
    List MetricEvent × Option String :=
  match inner with
  | .panicked err =>
      ([.gaugeInc .requestsInFlight ⟨some endpointID, none, none⟩,
        .gaugeDec .requestsInFlight ⟨some endpointID, none, none⟩], some err)
  | .normal status size =>
      ([.gaugeInc .requestsInFlight ⟨some endpointID, none, none⟩,
        .counterInc .requestsTotal
          ⟨some endpointID, some (toString status), some req.method⟩,
        .observe .requestLatency
          ⟨some endpointID, some (toString status), some req.method⟩
          ((elapsedMs : Rat) / 1000),
        .observe .requestSize ⟨some endpointID, none, none⟩
          ((computeApproximateRequestSize req : Int) : Rat),
        .observe .responseSize ⟨some endpointID, none, none⟩ ((size : Int) : Rat),
        .gaugeDec .requestsInFlight ⟨some endpointID, none, none⟩], none)

end V1

namespace V2

/-- Embedding of `Metrics` from src/pkg/middleware/metrics.go: the gauge,
the curried counter/observer vectors and the two observers, each modelled
by the label values already bound into the instrument (`With`/currying adds
the remaining `status` and `method` values inside the handler). -/
structure Metrics where
  RequestsInFlight : LabelSet
  RequestsTotal : LabelSet
  RequestLatency : LabelSet
  RequestSize : LabelSet
  ResponseSize : LabelSet
deriving DecidableEq, Repr

/-- Embedding of `LabeledMetrics` from src/pkg/middleware/metrics.go: the
five endpoint-labeled collector vectors. -/
structure LabeledMetrics where
  RequestsInFlight : Collector
  RequestsTotal : Collector
  RequestLatency : Collector
  RequestSize : Collector
  ResponseSize : Collector
deriving DecidableEq, Repr

/-- Embedding of `NewLabeledMetrics(registry, subsystem)` from
src/pkg/middleware/metrics.go: returns `none` for a nil registry;
otherwise builds the five vectors (all carrying the `endpoint` label, plus
`status` and `method` on totals and latency), registers them, and returns
the updated registry with the result. -/
def NewLabeledMetrics (registry : Option PromRegistry) (subsystem : String) :
    Option (PromRegistry × LabeledMetrics) :=
  match registry with
  | none => none
  | some reg =>
      let requestsInFlight : Collector := ⟨.requestsInFlight, subsystem, ["endpoint"]⟩
      let requestsTotal : Collector :=
        ⟨.requestsTotal, subsystem, ["endpoint", "status", "method"]⟩
      let requestLatency : Collector :=
        ⟨.requestLatency, subsystem, ["endpoint", "status", "method"]⟩
      let requestSize : Collector := ⟨.requestSize, subsystem, ["endpoint"]⟩
      let responseSize : Collector := ⟨.responseSize, subsystem, ["endpoint"]⟩
      some (reg ++ [requestsInFlight, requestsTotal, requestLatency,
                    requestSize, responseSize],
            ⟨requestsInFlight, requestsTotal, requestLatency,
             requestSize, responseSize⟩)

/-- Embedding of `NewMetrics(registry, subsystem)` from
src/pkg/middleware/metrics.go: returns `none` for a nil registry; otherwise
builds the unlabeled gauge and observers and the `status`/`method` vectors,
registers all five, and returns the updated registry with the `Metrics`
whose instruments carry no bound label values. -/
def NewMetrics (registry : Option PromRegistry) (subsystem : String) :
    Option (PromRegistry × Metrics) :=
  match registry with
  | none => none
  | some reg =>
      let requestsInFlight : Collector := ⟨.requestsInFlight, subsystem, []⟩
      let requestsTotal : Collector := ⟨.requestsTotal, subsystem, ["status", "method"]⟩
      let requestLatency : Collector := ⟨.requestLatency, subsystem, ["status", "method"]⟩
      let requestSize : Collector := ⟨.requestSize, subsystem, []⟩
      let responseSize : Collector := ⟨.responseSize, subsystem, []⟩
      some (reg ++ [requestsInFlight, requestsTotal, requestLatency,
                    requestSize, responseSize],
            ⟨⟨none, none, none⟩, ⟨none, none, none⟩, ⟨none, none, none⟩,
             ⟨none, none, none⟩, ⟨none, none, none⟩⟩)

/-- Embedding of `LabeledMetrics.Handler(endpointID)` from
src/pkg/middleware/metrics.go: curries each vector with the `endpoint`
label value and hands the resulting `Metrics` to its `Handler`. -/
def LabeledMetrics.Handler (_lm : LabeledMetrics) (endpointID : String) : Metrics :=
  ⟨⟨some endpointID, none, none⟩,
   ⟨some endpointID, none, none⟩,
   ⟨some endpointID, none, none⟩,
   ⟨some endpointID, none, none⟩,
   ⟨some endpointID, none, none⟩⟩

/-- Adding the `status` and `method` label values to a curried label set,
as done by `With(prometheus.Labels)` inside the handler. -/
def withStatusMethod (base : LabelSet) (status : Nat) (method : String) : LabelSet :=
  ⟨base.endpoint, some (toString status), some method⟩

/-- Embedding of `Metrics.Handler()` from src/pkg/middleware/metrics.go as
the trace of metric events it performs on one request: increment the
in-flight gauge, run the wrapped chain, then (on normal return) record the
totals counter and latency histogram with the `status` and `method` label
values added, observe the approximate request size and the response size,
and finally (deferred) decrement the gauge.  The second component is the
panic escaping the handler, if any. -/
def Metrics.Handler (m : Metrics) (req : GoRequest) (inner : InnerOutcome)
    (elapsedMs : Int) : List MetricEvent × Option String :=
  match inner with
  | .panicked err =>
      ([.gaugeInc .requestsInFlight m.RequestsInFlight,
        .gaugeDec .requestsInFlight m.RequestsInFlight], some err)
  | .normal status size =>
      ([.gaugeInc .requestsInFlight m.RequestsInFlight,
        .counterInc .requestsTotal (withStatusMethod m.RequestsTotal status req.method),
        .observe .requestLatency (withStatusMethod m.RequestLatency status req.method)
          ((elapsedMs : Rat) / 1000),
        .observe .requestSize m.RequestSize
          ((computeApproximateRequestSize req : Int) : Rat),
        .observe .responseSize m.ResponseSize ((size : Int) : Rat),
        .gaugeDec .requestsInFlight m.RequestsInFlight], none)

end V2

end Middleware

namespace UpstreamServer

/-- A structured log entry: level, message, and key/value fields. -/
structure LogEntry where
  level : String
  msg : String
  fields : List (String × String)
deriving DecidableEq, Repr

/-- The observable input of `wsRoute` from src/unnamed/part_000: whether
the WebSocket upgrade succeeds, the endpoint identifier the handshake may
carry, and the client IP.  The Go handler never reads any endpoint
identifier from the request. -/
structure WsHandshake where
  upgradeOk : Bool
  endpointID : Option String
  clientIP : String
deriving DecidableEq, Repr

inductive WsResult where
  | upgradeFailed
  | connected
deriving DecidableEq, Repr

/-- The observable effects of one `wsRoute` invocation: its result, the
endpoint identifiers it registers into any registry, whether the wrapped
connection is closed on handler return, and the log entries written. -/
structure WsEffect where
  result : WsResult
  registered : List String
  connClosed : Bool
  logs : List LogEntry
deriving DecidableEq, Repr

/-- Embedding of `wsRoute` from src/unnamed/part_000: upgrade the
connection (logging a warning and returning on failure), wrap it, defer
its close, and log the client IP at debug level.  No endpoint identifier
is inspected and nothing is registered. -/
def wsRoute (h : WsHandshake) : WsEffect :=
  if h.upgradeOk then
    ⟨.connected, [], true,
     [⟨"debug", "listener connected", [("client-ip", h.clientIP)]⟩]⟩
  else
    ⟨.upgradeFailed, [], false,
     [⟨"warn", "failed to upgrade websocket", []⟩]⟩

/-- Outcome of running a route handler chain: either it completes with a
committed response status, or it panics. -/
inductive HandlerOutcome where
  | completed (status : Nat)
  | panicked (err : String)
deriving DecidableEq, Repr

/-- Embedding of `panicRoute` from src/unnamed/part_000: logs the panic at
error level with the route path and the panic value, and aborts the
request with status 500 (`http.StatusInternalServerError`). -/
def panicRoute (fullPath : String) (err : String) : LogEntry × Nat :=
  (⟨"error", "handler panic", [("path", fullPath), ("err", err)]⟩, 500)

/-- Embedding of gin's `CustomRecoveryWithWriter` as installed by
`NewServer` in src/unnamed/part_000: run the handler chain; on normal
completion pass its response through; on panic invoke the recovery
function and respond with the status it sets, collecting the log entry it
writes.  The result is always a response — the panic never escapes. -/
def CustomRecoveryWithWriter (recovery : String → String → LogEntry × Nat)
    (fullPath : String) (outcome : HandlerOutcome) : Nat × List LogEntry :=
  match outcome with
  | .completed status => (status, [])
  | .panicked err =>
      let r := recovery fullPath err
      (r.2, [r.1])

/-- The request boundary wired by `NewServer` in src/unnamed/part_000:
`gin.CustomRecoveryWithWriter(nil, server.panicRoute)` installed on the
router, so every route handler runs inside the panic-recovery boundary
with `panicRoute` as the recovery function. -/
def serverHandle (fullPath : String) (outcome : HandlerOutcome) :
    Nat × List LogEntry :=
  CustomRecoveryWithWriter panicRoute fullPath outcome

end UpstreamServer

namespace Piko

/-- Updating an endpoint's entry leaves it retrievable under that endpoint,
provided the entry was present. -/
theorem lookup_updateEntryList (e : String) (ent₀ ent : Entry) :
    ∀ l : List (String × Entry), lookupEntry l e = some ent₀ →
      lookupEntry (updateEntryList l e ent) e = some ent := by
  intro l
  induction l with
  | nil => intro h; simp [lookupEntry] at h
  | cons p rest ih =>
      intro h
      obtain ⟨k, v⟩ := p
      by_cases hk : k = e
      · simp [lookupEntry, updateEntryList, hk]
      · simp only [lookupEntry, updateEntryList, if_neg hk] at h ⊢
        exact ih h

theorem Registry.lookup_updateEntry (r : Registry) (e : String) (ent₀ ent : Entry)
    (h : r.lookup e = some ent₀) :
    (r.updateEntry e ent).lookup e = some ent :=
  lookup_updateEntryList e ent₀ ent r.entries h

/-- Reduction of `Select` on a present, non-empty entry: it returns the
member at the rotation index and advances the counter. -/
theorem Registry.select_some (r : Registry) (e : String) (conns : List Tunnel)
    (next : Nat) (t : Tunnel) (hl : r.lookup e = some ⟨conns, next⟩)
    (ht : conns[next % conns.length]? = some t) :
    r.select e = .ok (t, r.updateEntry e ⟨conns, next + 1⟩) := by
  simp only [Registry.select, hl, ht]

/-- Element `i` of the selection sequence is the entry member at rotation
index `(next + i) mod N`, as long as the entry is untouched otherwise. -/
theorem Registry.selectSeq_getElem (e : String) (conns : List Tunnel)
    (hc : conns ≠ []) :
    ∀ (M i next : Nat) (r : Registry), i < M →
      r.lookup e = some ⟨conns, next⟩ →
      (r.selectSeq e M)[i]? = conns[(next + i) % conns.length]? := by
  intro M
  induction M with
  | zero => intro i next r hi; omega
  | succ m ih =>
      intro i next r hi hl
      have hlen : 0 < conns.length := List.length_pos.mpr hc
      have hidx : next % conns.length < conns.length := Nat.mod_lt _ hlen
      have ht : conns[next % conns.length]? = some (conns.get ⟨_, hidx⟩) :=
        List.getElem?_eq_getElem hidx
      have hsel := Registry.select_some r e conns next _ hl ht
      simp only [Registry.selectSeq, hsel]
      cases i with
      | zero =>
          simp [Nat.add_zero, ht]
      | succ k =>
          have hl2 : (r.updateEntry e ⟨conns, next + 1⟩).lookup e =
              some ⟨conns, next + 1⟩ :=
            Registry.lookup_updateEntry r e ⟨conns, next⟩ _ hl
          have hrec := ih k (next + 1) (r.updateEntry e ⟨conns, next + 1⟩)
            (by omega) hl2
          simpa [show next + (k + 1) = next + 1 + k by omega] using hrec

/-- Round-robin arithmetic: starting the rotation at `a < N`, offset
`(j + N - a) mod N` lands exactly on index `j`. -/
theorem rr_index_hit (a j N : Nat) (ha : a < N) (hj : j < N) :
    (a + (j + N - a) % N) % N = j := by
  have hle : a ≤ j + N := le_trans (le_of_lt ha) (Nat.le_add_left N j)
  have key : a + (j + N - a) = j + N := Nat.add_sub_cancel' hle
  calc (a + (j + N - a) % N) % N
      = (a % N + (j + N - a) % N % N) % N := by rw [Nat.add_mod]
    _ = (a % N + (j + N - a) % N) % N := by
          rw [Nat.mod_mod_of_dvd _ dvd_rfl]
    _ = (a + (j + N - a)) % N := by rw [← Nat.add_mod]
    _ = (j + N) % N := by rw [key]
    _ = j % N := Nat.add_mod_right j N
    _ = j := Nat.mod_eq_of_lt hj

end Piko

/-- C1: registering an upstream handler that writes body "bar" with status
200 under endpoint "my-endpoint" makes `Forward` of an inbound GET with
query a=b (resolved to that endpoint) return status 200 with body "bar";
a second listener under "my-endpoint-2" backed by the same upstream handler
yields the same result, independently of the first. -/
theorem c1_forward_multiendpoint
    (attempt : Piko.Tunnel → Piko.HttpRequest → Piko.AttemptResult)
    (hup : ∀ t q, attempt t q = .success ⟨200, "bar"⟩) :
    Piko.forward ⟨[("my-endpoint", ⟨[1], 0⟩), ("my-endpoint-2", ⟨[2], 0⟩)]⟩
        "my-endpoint" ⟨"GET", "/foo/bar", [("a", "b")], ""⟩ attempt
      = (.ok ⟨200, "bar"⟩, 1) ∧
    Piko.forward ⟨[("my-endpoint", ⟨[1], 0⟩), ("my-endpoint-2", ⟨[2], 0⟩)]⟩
        "my-endpoint-2" ⟨"GET", "/foo/bar", [("a", "b")], ""⟩ attempt
      = (.ok ⟨200, "bar"⟩, 1) := by
  constructor <;>
    simp [Piko.forward, Piko.Registry.select, Piko.Registry.lookup,
      Piko.lookupEntry, Piko.Registry.updateEntry, Piko.updateEntryList, hup]

/-- Witness for C1 at the constant upstream handler writing "bar"/200. -/
theorem c1_forward_multiendpoint_witness :
    Piko.forward ⟨[("my-endpoint", ⟨[1], 0⟩), ("my-endpoint-2", ⟨[2], 0⟩)]⟩
        "my-endpoint" ⟨"GET", "/foo/bar", [("a", "b")], ""⟩
        (fun _ _ => .success ⟨200, "bar"⟩)
      = (.ok ⟨200, "bar"⟩, 1) ∧
    Piko.forward ⟨[("my-endpoint", ⟨[1], 0⟩), ("my-endpoint-2", ⟨[2], 0⟩)]⟩
        "my-endpoint-2" ⟨"GET", "/foo/bar", [("a", "b")], ""⟩
        (fun _ _ => .success ⟨200, "bar"⟩)
      = (.ok ⟨200, "bar"⟩, 1) :=
  c1_forward_multiendpoint (fun _ _ => .success ⟨200, "bar"⟩) (fun _ _ => rfl)

/-- C4: for an endpoint whose registry entry is absent or empty,
`Registry.Select` returns `NoTunnel`, and `Forward` fails immediately with
`NoTunnel` having made zero exchange attempts (no blocking, no retry). -/
theorem c4_no_tunnel_immediate (r : Piko.Registry) (e : String)
    (req : Piko.HttpRequest)
    (attempt : Piko.Tunnel → Piko.HttpRequest → Piko.AttemptResult)
    (hempty : ∀ ent, r.lookup e = some ent → ent.conns = []) :
    r.select e = .error .NoTunnel ∧
    Piko.forward r e req attempt = (.error .NoTunnel, 0) := by
  have hsel : r.select e = .error .NoTunnel := by
    rw [Piko.Registry.select]
    cases hl : r.lookup e with
    | none => rfl
    | some ent =>
        have hc := hempty ent hl
        simp [hc]
  exact ⟨hsel, by simp [Piko.forward, hsel]⟩

/-- Witness for C4 at a registry with no entry for the endpoint. -/
theorem c4_no_tunnel_immediate_witness :
    (⟨[]⟩ : Piko.Registry).select "my-endpoint" = .error .NoTunnel ∧
    Piko.forward ⟨[]⟩ "my-endpoint" ⟨"GET", "/", [], ""⟩
        (fun _ _ => .failBeforeBytes) = (.error .NoTunnel, 0) :=
  c4_no_tunnel_immediate ⟨[]⟩ "my-endpoint" ⟨"GET", "/", [], ""⟩
    (fun _ _ => .failBeforeBytes)
    (by intro ent h; simp [Piko.Registry.lookup, Piko.lookupEntry] at h)

/-- C6: once a selected tunnel's exchange fails after at least one response
byte was received, `Forward` surfaces `UpstreamReset` and makes no further
attempt on another tunnel — both when the failure happens on the first
selected tunnel (one attempt total) and when it happens on the single
retry tunnel (two attempts total, no third). -/
theorem c6_no_retry_after_response_bytes (r : Piko.Registry) (e : String)
    (req : Piko.HttpRequest)
    (attempt : Piko.Tunnel → Piko.HttpRequest → Piko.AttemptResult)
    (t : Piko.Tunnel) (r1 : Piko.Registry)
    (hsel : r.select e = .ok (t, r1)) :
    (attempt t req = .failAfterBytes →
      Piko.forward r e req attempt = (.error .UpstreamReset, 1)) ∧
    (∀ t2 r2, attempt t req = .failBeforeBytes →
      (r1.removeConn e t).select e = .ok (t2, r2) →
      attempt t2 req = .failAfterBytes →
      Piko.forward r e req attempt = (.error .UpstreamReset, 2)) := by
  constructor
  · intro hfail
    simp [Piko.forward, hsel, hfail]
  · intro t2 r2 h1 h2 h3
    simp [Piko.forward, hsel, h1, h2, h3]

/-- Witness for C6 at a two-tunnel registry whose exchanges die after the
first response byte. -/
theorem c6_no_retry_after_response_bytes_witness :
    Piko.forward ⟨[("e", ⟨[7, 8], 0⟩)]⟩ "e" ⟨"GET", "/", [], ""⟩
        (fun _ _ => .failAfterBytes) = (.error .UpstreamReset, 1) :=
  (c6_no_retry_after_response_bytes ⟨[("e", ⟨[7, 8], 0⟩)]⟩ "e"
    ⟨"GET", "/", [], ""⟩ (fun _ _ => .failAfterBytes) 7
    ⟨[("e", ⟨[7, 8], 1⟩)]⟩ rfl).1 rfl

/-- C5: for an endpoint with N >= 2 registered tunnels that stay untouched,
any M >= N consecutive `Registry.Select` calls rotate round-robin, so every
one of the N tunnels is returned at least once — no tunnel receives zero
requests. -/
theorem c5_round_robin_hits_every_tunnel (r : Piko.Registry) (e : String)
    (conns : List Piko.Tunnel) (next M : Nat)
    (hl : r.lookup e = some ⟨conns, next⟩)
    (hN : 2 ≤ conns.length) (hM : conns.length ≤ M) :
    ∀ t ∈ conns, t ∈ r.selectSeq e M := by
  intro t htmem
  obtain ⟨⟨j, hj⟩, hget⟩ := List.mem_iff_get.mp htmem
  have hc : conns ≠ [] := by
    intro hnil
    rw [hnil] at hN
    simp at hN
  have hlen : 0 < conns.length := List.length_pos.mpr hc
  have ha : next % conns.length < conns.length := Nat.mod_lt _ hlen
  have hiN : (j + conns.length - next % conns.length) % conns.length <
      conns.length := Nat.mod_lt _ hlen
  have hmod : (next + (j + conns.length - next % conns.length) %
      conns.length) % conns.length = j := by
    have step : (next + (j + conns.length - next % conns.length) %
        conns.length) % conns.length
        = (next % conns.length + (j + conns.length - next % conns.length) %
            conns.length) % conns.length := by
      conv_lhs => rw [Nat.add_mod]
      rw [Nat.mod_mod_of_dvd _ dvd_rfl]
    rw [step]
    exact Piko.rr_index_hit (next % conns.length) j conns.length ha hj
  have hseq := Piko.Registry.selectSeq_getElem e conns hc M
    ((j + conns.length - next % conns.length) % conns.length) next r
    (lt_of_lt_of_le hiN hM) hl
  rw [hmod] at hseq
  have hsome : (r.selectSeq e M)[(j + conns.length - next % conns.length) %
      conns.length]? = some t := by
    rw [hseq, ← hget]
    exact List.getElem?_eq_getElem hj
  exact List.getElem?_mem hsome

/-- Witness for C5: a two-tunnel entry and two consecutive selections hit
both tunnels. -/
theorem c5_round_robin_hits_every_tunnel_witness :
    (4 : Piko.Tunnel) ∈
      (⟨[("e", ⟨[4, 5], 0⟩)]⟩ : Piko.Registry).selectSeq "e" 2 ∧
    (5 : Piko.Tunnel) ∈
      (⟨[("e", ⟨[4, 5], 0⟩)]⟩ : Piko.Registry).selectSeq "e" 2 :=
  ⟨c5_round_robin_hits_every_tunnel ⟨[("e", ⟨[4, 5], 0⟩)]⟩ "e" [4, 5] 0 2
      rfl (by decide) (by decide) 4 (by decide),
    c5_round_robin_hits_every_tunnel ⟨[("e", ⟨[4, 5], 0⟩)]⟩ "e" [4, 5] 0 2
      rfl (by decide) (by decide) 5 (by decide)⟩

/-- C2 counterexample: a successfully upgraded handshake with a missing or
empty endpoint identifier is not rejected by `wsRoute` — the handler
accepts it and creates the connection, never inspecting the identifier. -/
theorem c2_missing_endpoint_not_rejected :
    (UpstreamServer.wsRoute ⟨true, none, "1.2.3.4"⟩).result =
        UpstreamServer.WsResult.connected ∧
    (UpstreamServer.wsRoute ⟨true, some "", "1.2.3.4"⟩).result =
        UpstreamServer.WsResult.connected := by
  exact ⟨rfl, rfl⟩

/-- C2 amended: `wsRoute` performs no endpoint-identifier validation — its
behaviour is independent of any endpoint identifier carried by the
handshake (it depends only on the upgrade outcome and the client IP), and
it never registers a connection under any endpoint. -/
theorem c2_no_endpoint_validation (h : UpstreamServer.WsHandshake) :
    UpstreamServer.wsRoute h =
      UpstreamServer.wsRoute ⟨h.upgradeOk, none, h.clientIP⟩ ∧
    (UpstreamServer.wsRoute h).registered = [] := by
  obtain ⟨u, eid, ip⟩ := h
  cases u <;> exact ⟨rfl, rfl⟩

/-- C3: a panic in a route handler on the acceptance path is caught by the
recovery boundary installed by `NewServer`, logged at error level with the
route path and the panic value, and converted into a 500 Internal Server
Error response; the boundary always produces a response, so the panic
never escapes the request. -/
theorem c3_panic_recovered_as_500 (fullPath err : String) :
    UpstreamServer.serverHandle fullPath (.panicked err) =
      (500, [⟨"error", "handler panic",
              [("path", fullPath), ("err", err)]⟩]) ∧
    (∀ status : Nat, UpstreamServer.serverHandle fullPath
        (.completed status) = (status, [])) := by
  exact ⟨rfl, fun _ => rfl⟩

/-- C7: on a request whose wrapped chain completes normally, each metrics
middleware records exactly one observation per family — one requests-total
increment and one latency observation labeled with the response status and
request method, one request-size observation with the approximate request
size, one response-size observation with the response body size — and the
in-flight gauge is incremented first and decremented last, bracketing the
whole handling.  Stated for both `Metrics.Handler` of
src/pkg/middleware/metrics.go and `Metrics.Handler` of
src/unnamed/part_002. -/
theorem c7_exactly_one_observation_per_family (m1 : Middleware.V1.Metrics)
    (m2 : Middleware.V2.Metrics) (endpointID : String)
    (req : Middleware.GoRequest) (status : Nat) (size : Int)
    (elapsedMs : Int) :
    (Middleware.observationsOf
        (m2.Handler req (.normal status size) elapsedMs).1 .requestsTotal =
      [.counterInc .requestsTotal
        (Middleware.V2.withStatusMethod m2.RequestsTotal status req.method)]) ∧
    (Middleware.observationsOf
        (m2.Handler req (.normal status size) elapsedMs).1 .requestLatency =
      [.observe .requestLatency
        (Middleware.V2.withStatusMethod m2.RequestLatency status req.method)
        ((elapsedMs : Rat) / 1000)]) ∧
    (Middleware.observationsOf
        (m2.Handler req (.normal status size) elapsedMs).1 .requestSize =
      [.observe .requestSize m2.RequestSize
        ((Middleware.computeApproximateRequestSize req : Int) : Rat)]) ∧
    (Middleware.observationsOf
        (m2.Handler req (.normal status size) elapsedMs).1 .responseSize =
      [.observe .responseSize m2.ResponseSize ((size : Int) : Rat)]) ∧
    ((m2.Handler req (.normal status size) elapsedMs).1.head? =
      some (.gaugeInc .requestsInFlight m2.RequestsInFlight)) ∧
    ((m2.Handler req (.normal status size) elapsedMs).1.getLast? =
      some (.gaugeDec .requestsInFlight m2.RequestsInFlight)) ∧
    (Middleware.observationsOf
        (m1.Handler endpointID req (.normal status size) elapsedMs).1
        .requestsTotal =
      [.counterInc .requestsTotal
        ⟨some endpointID, some (toString status), some req.method⟩]) ∧
    (Middleware.observationsOf
        (m1.Handler endpointID req (.normal status size) elapsedMs).1
        .requestLatency =
      [.observe .requestLatency
        ⟨some endpointID, some (toString status), some req.method⟩
        ((elapsedMs : Rat) / 1000)]) ∧
    (Middleware.observationsOf
        (m1.Handler endpointID req (.normal status size) elapsedMs).1
        .requestSize =
      [.observe .requestSize ⟨some endpointID, none, none⟩
        ((Middleware.computeApproximateRequestSize req : Int) : Rat)]) ∧
    (Middleware.observationsOf
        (m1.Handler endpointID req (.normal status size) elapsedMs).1
        .responseSize =
      [.observe .responseSize ⟨some endpointID, none, none⟩
        ((size : Int) : Rat)]) ∧
    ((m1.Handler endpointID req (.normal status size) elapsedMs).1.head? =
      some (.gaugeInc .requestsInFlight ⟨some endpointID, none, none⟩)) ∧
    ((m1.Handler endpointID req (.normal status size) elapsedMs).1.getLast? =
      some (.gaugeDec .requestsInFlight ⟨some endpointID, none, none⟩)) := by
  exact ⟨rfl, rfl, rfl, rfl, rfl, rfl, rfl, rfl, rfl, rfl, rfl, rfl⟩

/-- C8: for every request, wrapped-chain outcome and endpoint identifier,
the endpoint-labeled handler of src/unnamed/part_002 and the curried
handler of src/pkg/middleware/metrics.go perform the same trace of metric
events — same families, same endpoint/status/method label values, same
observed numeric values — and propagate the same panic. -/
theorem c8_labeled_handlers_equivalent (m1 : Middleware.V1.Metrics)
    (lm : Middleware.V2.LabeledMetrics) (endpointID : String)
    (req : Middleware.GoRequest) (inner : Middleware.InnerOutcome)
    (elapsedMs : Int) :
    m1.Handler endpointID req inner elapsedMs =
      (lm.Handler endpointID).Handler req inner elapsedMs := by
  cases inner <;> rfl

/-- C9: over any request — including one whose wrapped chain panics — each
metrics middleware increments the in-flight gauge exactly once and
decrements it exactly once (the decrement is deferred and is the last
event), so the gauge's net change over the request is zero.  Stated for
both `Metrics.Handler` of src/pkg/middleware/metrics.go and
`Metrics.Handler` of src/unnamed/part_002. -/
theorem c9_inflight_gauge_balanced (m1 : Middleware.V1.Metrics)
    (m2 : Middleware.V2.Metrics) (endpointID : String)
    (req : Middleware.GoRequest) (inner : Middleware.InnerOutcome)
    (elapsedMs : Int) :
    ((m2.Handler req inner elapsedMs).1.countP Middleware.isInflightInc = 1) ∧
    ((m2.Handler req inner elapsedMs).1.countP Middleware.isInflightDec = 1) ∧
    (Middleware.inflightDelta (m2.Handler req inner elapsedMs).1 = 0) ∧
    ((m2.Handler req inner elapsedMs).1.getLast?.map Middleware.isInflightDec =
      some true) ∧
    ((m1.Handler endpointID req inner elapsedMs).1.countP
      Middleware.isInflightInc = 1) ∧
    ((m1.Handler endpointID req inner elapsedMs).1.countP
      Middleware.isInflightDec = 1) ∧
    (Middleware.inflightDelta
      (m1.Handler endpointID req inner elapsedMs).1 = 0) ∧
    ((m1.Handler endpointID req inner elapsedMs).1.getLast?.map
      Middleware.isInflightDec = some true) := by
  cases inner <;> exact ⟨rfl, rfl, rfl, rfl, rfl, rfl, rfl, rfl⟩

/-- C10: `NewMetrics` and `NewLabeledMetrics` of
src/pkg/middleware/metrics.go return nil for a nil registry, and for a
non-nil registry they register exactly the five collectors
(requests-in-flight, requests-total, request-latency, request-size,
response-size) with it and return a non-nil result. -/
theorem c10_constructors_nil_and_registration :
    (∀ s, Middleware.V2.NewMetrics none s = none) ∧
    (∀ s, Middleware.V2.NewLabeledMetrics none s = none) ∧
    (∀ (reg : Middleware.PromRegistry) (s : String),
      ∃ m, Middleware.V2.NewMetrics (some reg) s =
        some (reg ++ [⟨.requestsInFlight, s, []⟩,
                      ⟨.requestsTotal, s, ["status", "method"]⟩,
                      ⟨.requestLatency, s, ["status", "method"]⟩,
                      ⟨.requestSize, s, []⟩,
                      ⟨.responseSize, s, []⟩], m)) ∧
    (∀ (reg : Middleware.PromRegistry) (s : String),
      ∃ lm, Middleware.V2.NewLabeledMetrics (some reg) s =
        some (reg ++ [⟨.requestsInFlight, s, ["endpoint"]⟩,
                      ⟨.requestsTotal, s, ["endpoint", "status", "method"]⟩,
                      ⟨.requestLatency, s, ["endpoint", "status", "method"]⟩,
                      ⟨.requestSize, s, ["endpoint"]⟩,
                      ⟨.responseSize, s, ["endpoint"]⟩], lm)) := by
  exact ⟨fun _ => rfl, fun _ => rfl, fun _ _ => ⟨_, rfl⟩, fun _ _ => ⟨_, rfl⟩⟩
